import Mathlib

/-!
Formal model of the kids-poster generation pipeline.

The development shallowly embeds the two source files of the repository:

* the HTTP handler in app/api/generate/route.ts, modelled as the pure
  function POST over an explicit environment, a parsed request and an
  oracle describing the outcomes of the external calls (image API fetch,
  storage upload, public URL resolution), returning the HTTP response
  together with the list of external effects performed, and

* the two client-side helpers of components/KidsPosterMVP.tsx,
  downscaleImage and overlayTitle, modelled over the decoded image
  dimensions with oracles for canvas-context and blob availability.

Machine reals of the source (JavaScript numbers) are modelled as
rationals; string trimming is modelled over the ASCII whitespace subset.
-/

set_option maxRecDepth 40000

namespace KidsPoster

/-- Trimming as in the source: drop leading and trailing whitespace.
Modelled over the ASCII whitespace subset recognised by Char.isWhitespace. -/
def jsTrim (s : String) : String :=
  String.mk (((s.data.dropWhile Char.isWhitespace).reverse.dropWhile Char.isWhitespace).reverse)

/-- JavaScript truthiness of an optional environment or form string:
undefined and the empty string are falsy. -/
def strTruthy : Option String → Bool
  | none => false
  | some s => !(s == "")

/-- The pattern (v as string) or-else dflt of the source: a missing value
and the empty string both fall back to the default. -/
def formString (v : Option String) (dflt : String) : String :=
  match v with
  | none => dflt
  | some s => if s == "" then dflt else s

/-- Substring containment: sub occurs contiguously inside big. -/
def ContainsSub (sub big : String) : Prop :=
  sub.data <:+: big.data

instance (a b : String) : Decidable (ContainsSub a b) :=
  inferInstanceAs (Decidable (a.data <:+: b.data))

theorem containsSub_of_eq_append (sub pre post big : String)
    (h : big = pre ++ sub ++ post) : ContainsSub sub big := by
  refine ⟨pre.data, post.data, ?_⟩
  subst h
  simp [String.data_append]

theorem containsSub_append_left (sub s t : String)
    (h : ContainsSub sub t) : ContainsSub sub (s ++ t) := by
  obtain ⟨a, b, hab⟩ := h
  refine ⟨s.data ++ a, b, ?_⟩
  rw [String.data_append, ← hab]
  simp

theorem containsSub_append_right (sub s t : String)
    (h : ContainsSub sub s) : ContainsSub sub (s ++ t) := by
  obtain ⟨a, b, hab⟩ := h
  refine ⟨a, b ++ t.data, ?_⟩
  rw [String.data_append, ← hab]
  simp

theorem containsSub_trans (a b c : String)
    (hab : ContainsSub a b) (hbc : ContainsSub b c) : ContainsSub a c := by
  obtain ⟨s₁, t₁, h₁⟩ := hab
  obtain ⟨s₂, t₂, h₂⟩ := hbc
  refine ⟨s₂ ++ s₁, t₁ ++ t₂, ?_⟩
  rw [← h₂, ← h₁]
  simp

/-- Array.prototype.join of the source: empty list gives the empty string,
otherwise elements interleaved with the separator. -/
def joinWith (sep : String) : List String → String
  | [] => ""
  | [x] => x
  | x :: y :: xs => x ++ sep ++ joinWith sep (y :: xs)

/-- The numbering map of the source prompt assembly: item i becomes
"i. item", with numbering starting at the given index. -/
def numberFrom (i : Nat) : List String → List String
  | [] => []
  | g :: gs => (toString i ++ ". " ++ g) :: numberFrom (i + 1) gs

theorem containsSub_joinWith_numberFrom (sep g : String) :
    ∀ (l : List String), g ∈ l → ∀ (i : Nat),
      ContainsSub g (joinWith sep (numberFrom i l)) := by
  intro l
  induction l with
  | nil => intro hg; cases hg
  | cons x xs ih =>
    intro hg i
    cases xs with
    | nil =>
      cases hg with
      | head =>
        refine ⟨(toString i ++ ". ").data, [], ?_⟩
        simp [joinWith, numberFrom, String.data_append]
      | tail _ h2 => cases h2
    | cons y ys =>
      cases hg with
      | head =>
        refine ⟨(toString i ++ ". ").data,
          (sep ++ joinWith sep (numberFrom (i + 1) (y :: ys))).data, ?_⟩
        simp [joinWith, numberFrom, String.data_append]
      | tail _ hg =>
        have h := ih hg (i + 1)
        have heq : joinWith sep (numberFrom i (x :: y :: ys)) =
            (toString i ++ ". " ++ x ++ sep) ++
              joinWith sep (numberFrom (i + 1) (y :: ys)) := by
          simp [numberFrom, joinWith, String.append_assoc]
        rw [heq]
        exact containsSub_append_left _ _ _ h

/-! Prompt assembly of the handler, line for line from route.ts. -/

/-- Directive pushed when allowShapes is true. -/
def mayShapesDirective : String :=
  "You MAY add a few simple abstract shapes (cut-out style) in background or margins, subtle and secondary."

/-- Directive pushed when allowShapes is false. -/
def noShapesDirective : String :=
  "Do NOT add new shapes; only recolor and tidy."

/-- Directive pushed when aiText is true and the title trims to non-empty. -/
def titleDirective (titleText : String) : String :=
  "If adding text, use this title: \"" ++ jsTrim titleText ++
    "\" in a clean, minimal layout; keep it unobtrusive."

/-- Directive pushed when aiText is false or the title trims to empty. -/
def noTextDirective : String :=
  "Do NOT add any text."

/-- The ordered guidance list built by the handler: four fixed directives,
then exactly one of the shapes pair, then exactly one of the text pair. -/
def guidance (style accent : String) (allowShapes aiText : Bool)
    (titleText : String) : List String :=
  ["Preserve ALL original shapes, proportions, and line strokes exactly.",
   "Do NOT change faces, figures, or geometry. No new characters or objects.",
   "Recolor using flat, paper-like blocks; clean negative space; wide margins.",
   "Use a " ++ style ++ " aesthetic with harmonious palette around accent " ++ accent ++ "."]
  ++ [if allowShapes then mayShapesDirective else noShapesDirective]
  ++ [if aiText && !(jsTrim titleText == "") then titleDirective titleText
      else noTextDirective]

/-- The assembled prompt: the framing template literal of the source with
the numbered guidance joined by newlines. -/
def promptOf (style accent : String) (allowShapes aiText : Bool)
    (titleText : String) : String :=
  "\n      Transform the input into a modern living-room poster while following these rules:\n      "
  ++ joinWith "\n" (numberFrom 1 (guidance style accent allowShapes aiText titleText))
  ++ "\n    "

/-! Data model of the handler. -/

/-- Process environment values read by route.ts; each is the raw string or
absent, exactly as process.env exposes it. -/
structure Env where
  openaiApiKey : Option String
  supabaseUrl : Option String
  supabaseServiceRoleKey : Option String
  supabaseBucket : Option String
  vercel : Option String

/-- The multipart form fields read by the handler; a missing field is none.
The image blob content is never inspected by the handler, so it is a unit. -/
structure FormDataModel where
  image : Option Unit
  style : Option String
  paletteAccent : Option String
  allowShapes : Option String
  aiText : Option String
  titleText : Option String

/-- An incoming request: the fast query parameter and the parsed form. -/
structure RequestModel where
  fastParam : Option String
  form : FormDataModel

/-- Outcome of the outbound image-API fetch, as observed by the handler:
the promise rejects with an AbortError when the timeout timer fired,
rejects with some other error message, or resolves with a status, an error
body text, and an optional base64 payload parsed from the JSON body. -/
inductive FetchOutcome where
  | aborted
  | thrown (msg : String)
  | response (status : Nat) (bodyText : String) (b64 : Option String)
deriving DecidableEq

/-- Oracle for the external world of one request: the fetch outcome, the
generated UUID, the storage upload error if any, and the public URL the
storage client resolves (none or empty model a missing publicUrl field). -/
structure World where
  fetchOutcome : FetchOutcome
  uuid : String
  uploadError : Option String
  publicUrl : Option String

/-- External effects the handler performs, in order. -/
inductive Effect where
  | fetchImageEdit (size : String) (prompt : String) (timeoutMs : Nat)
  | storageUpload (bucket : String) (key : String)
  | getPublicUrl (bucket : String) (key : String)
deriving DecidableEq

/-- The JSON response: the HTTP status and the optional posterUrl and error
fields of the body (the handler always sets exactly one of the two). -/
structure ApiResponse where
  status : Nat
  posterUrl : Option String
  error : Option String
deriving DecidableEq

/-- Response.ok of the fetch API: status in the range 200 to 299. -/
def respOk (status : Nat) : Bool :=
  200 ≤ status && status ≤ 299

/-- The fast query flag: searchParams.get("fast") strictly equals "1". -/
def requestFast (req : RequestModel) : Bool :=
  req.fastParam == some "1"

/-- Output size selection of route.ts: square when fast or on Vercel,
portrait otherwise. -/
def profileSize (fast isVercel : Bool) : String :=
  if fast || isVercel then "1024x1024" else "1024x1536"

/-- Timeout selection of route.ts: short when fast or on Vercel, long
otherwise. -/
def profileTimeout (fast isVercel : Bool) : Nat :=
  if fast || isVercel then 9000 else 45000

/-- The specific message produced for an aborted (timed out) fetch. -/
def timeoutMessage : String :=
  "Timed out. Try again (image was likely too large/slow)."

/-- The POST handler of route.ts, step for step: configuration guards,
profile selection, form validation, prompt assembly, the timeout-bounded
image-API call, the storage upload and the public URL resolution, with the
catch block mapping an AbortError to the timeout message and any other
thrown error to its own message. Returns the response and the external
effects performed. -/
def POST (env : Env) (req : RequestModel) (w : World) :
    ApiResponse × List Effect :=
  if !(strTruthy env.openaiApiKey) then
    ({ status := 500, posterUrl := none,
       error := some "Missing OPENAI_API_KEY in .env" }, [])
  else if !(strTruthy env.supabaseUrl) || !(strTruthy env.supabaseServiceRoleKey) then
    ({ status := 500, posterUrl := none,
       error := some "Missing Supabase env vars" }, [])
  else
    let fast := requestFast req
    let isVercel := strTruthy env.vercel
    let size := profileSize fast isVercel
    let timeoutMs := profileTimeout fast isVercel
    match req.form.image with
    | none =>
      ({ status := 400, posterUrl := none, error := some "No image uploaded" }, [])
    | some _ =>
      let style := formString req.form.style "Cut-out modern poster"
      let accent := formString req.form.paletteAccent "#E63946"
      let allowShapes := req.form.allowShapes == some "true"
      let aiText := req.form.aiText == some "true"
      let titleText := formString req.form.titleText ""
      let prompt := promptOf style accent allowShapes aiText titleText
      let fetched := Effect.fetchImageEdit size prompt timeoutMs
      match w.fetchOutcome with
      | FetchOutcome.aborted =>
        ({ status := 500, posterUrl := none, error := some timeoutMessage },
         [fetched])
      | FetchOutcome.thrown msg =>
        ({ status := 500, posterUrl := none, error := some msg }, [fetched])
      | FetchOutcome.response st bodyText b64 =>
        if !(respOk st) then
          ({ status := 502, posterUrl := none,
             error := some ("OpenAI error " ++ toString st ++ ": " ++ bodyText) },
           [fetched])
        else
          match b64 with
          | none =>
            ({ status := 502, posterUrl := none,
               error := some "OpenAI returned no image" }, [fetched])
          | some b =>
            if b == "" then
              ({ status := 502, posterUrl := none,
                 error := some "OpenAI returned no image" }, [fetched])
            else
              let bucket := formString env.supabaseBucket "kids-posters"
              let key := "posters/" ++ w.uuid ++ ".png"
              match w.uploadError with
              | some e =>
                ({ status := 500, posterUrl := none,
                   error := some ("Supabase upload failed: " ++ e) },
                 [fetched, Effect.storageUpload bucket key])
              | none =>
                match w.publicUrl with
                | none =>
                  ({ status := 500, posterUrl := none,
                     error := some "Could not get public URL from Supabase" },
                   [fetched, Effect.storageUpload bucket key,
                    Effect.getPublicUrl bucket key])
                | some u =>
                  if u == "" then
                    ({ status := 500, posterUrl := none,
                       error := some "Could not get public URL from Supabase" },
                     [fetched, Effect.storageUpload bucket key,
                      Effect.getPublicUrl bucket key])
                  else
                    ({ status := 200, posterUrl := some u, error := none },
                     [fetched, Effect.storageUpload bucket key,
                      Effect.getPublicUrl bucket key])

/-! Client-side helpers of KidsPosterMVP.tsx. JavaScript numbers are
modelled as rationals; Math.round is the round of Mathlib, which agrees
with floor of x plus one half on the nonnegative values arising here. -/

/-- Result of downscaleImage: either the original File reference is
returned untouched, or a re-encoded JPEG redrawn at the given canvas
dimensions. -/
inductive DownscaleResult where
  | original
  | redrawn (w : Nat) (h : Nat)
deriving DecidableEq

/-- downscaleImage of KidsPosterMVP.tsx over the decoded dimensions.
scale is min of 1 and maxSide over the longer side; a scale of at least 1
returns the file unchanged, as do a missing canvas context or a failed
toBlob (the ctxOk and blobOk oracles). In JavaScript a zero longer side
gives an infinite quotient, hence scale 1, modelled by the zero guard. -/
def downscaleImage (width height maxSide : Nat) (ctxOk blobOk : Bool) :
    DownscaleResult :=
  let longSide := max width height
  let scale : ℚ :=
    if longSide = 0 then 1 else min 1 ((maxSide : ℚ) / (longSide : ℚ))
  if 1 ≤ scale then DownscaleResult.original
  else
    let cw := (round ((width : ℚ) * scale)).toNat
    let ch := (round ((height : ℚ) * scale)).toNat
    if !ctxOk then DownscaleResult.original
    else if !blobOk then DownscaleResult.original
    else DownscaleResult.redrawn cw ch

/-- The drawing parameters overlayTitle fixes on the canvas: its
dimensions, the font size, and the centre position of the title text. -/
structure OverlayMetrics where
  canvasWidth : Nat
  canvasHeight : Nat
  fontSize : ℤ
  textX : ℚ
  textY : ℚ
deriving DecidableEq

/-- The fixed extra band height of overlayTitle. -/
def titleBox : Nat := 140

/-- The metrics overlayTitle computes from the decoded poster dimensions:
the canvas keeps the width, adds the band below, sizes the font as the
larger of 20 and roughly 3.5 percent of the width, and centres the text
horizontally in the middle of the band. -/
def overlayMetrics (width height : Nat) : OverlayMetrics :=
  { canvasWidth := width
    canvasHeight := height + titleBox
    fontSize := max 20 (round ((width : ℚ) * (35 / 1000)))
    textX := (width : ℚ) / 2
    textY := (height : ℚ) + (titleBox : ℚ) / 2 }

/-- Result of overlayTitle: either the original poster URL is handed back
unchanged, or a freshly rendered canvas with the given metrics and text. -/
inductive OverlayResult where
  | passthrough (url : String)
  | rendered (m : OverlayMetrics) (text : String)
deriving DecidableEq

/-- overlayTitle of KidsPosterMVP.tsx over the decoded poster dimensions:
a title trimming to empty returns the poster URL unchanged, as does a
failed toBlob (the blobOk oracle); otherwise a new canvas is rendered with
the fixed metrics and the trimmed title text. -/
def overlayTitle (posterUrl title : String) (width height : Nat)
    (blobOk : Bool) : OverlayResult :=
  if jsTrim title == "" then OverlayResult.passthrough posterUrl
  else if !blobOk then OverlayResult.passthrough posterUrl
  else OverlayResult.rendered (overlayMetrics width height) (jsTrim title)

/-! Sample environments, requests and worlds used to exercise the claim
theorems on concrete inputs. -/

/-- A fully configured environment. -/
def envFull : Env :=
  { openaiApiKey := some "sk-test"
    supabaseUrl := some "https://example.supabase.co"
    supabaseServiceRoleKey := some "service-role"
    supabaseBucket := none
    vercel := none }

/-- An environment with the API credential absent. -/
def envNoKey : Env :=
  { envFull with openaiApiKey := none }

/-- A form with no image field. -/
def formNoImage : FormDataModel :=
  { image := none, style := none, paletteAccent := none,
    allowShapes := none, aiText := none, titleText := none }

/-- A form carrying an image and no optional fields. -/
def formWithImage : FormDataModel :=
  { formNoImage with image := some () }

/-- A request with no image field and no fast flag. -/
def reqNoImage : RequestModel :=
  { fastParam := none, form := formNoImage }

/-- A request carrying an image and no fast flag. -/
def reqWithImage : RequestModel :=
  { fastParam := none, form := formWithImage }

/-- A world where the image-API fetch is aborted by the timeout timer. -/
def worldAborted : World :=
  { fetchOutcome := FetchOutcome.aborted, uuid := "u0",
    uploadError := none, publicUrl := none }

/-- A world where the fetch rejects with an ordinary network error. -/
def worldThrown : World :=
  { worldAborted with fetchOutcome := FetchOutcome.thrown "fetch failed" }

/-- A world where the image API answers 401 with an error body. -/
def worldBadStatus : World :=
  { worldAborted with fetchOutcome := FetchOutcome.response 401 "unauthorized" none }

/-- A world where the image API answers 200 without a base64 payload. -/
def worldNoPayload : World :=
  { worldAborted with fetchOutcome := FetchOutcome.response 200 "" none }

/-- A world where generation succeeds but the storage upload fails. -/
def worldUploadFail : World :=
  { fetchOutcome := FetchOutcome.response 200 "" (some "aGVsbG8="), uuid := "u0",
    uploadError := some "bucket not found", publicUrl := none }

/-- A world where the whole pipeline succeeds. -/
def worldSuccess : World :=
  { fetchOutcome := FetchOutcome.response 200 "" (some "aGVsbG8="), uuid := "u0",
    uploadError := none,
    publicUrl := some "https://example.supabase.co/object/public/p.png" }

/-- Claim C7: a request arriving while the API credential, the storage URL
or the storage key is absent is answered with status 500 and no external
effect is performed: neither the image-API fetch nor any storage call. -/
theorem claim_C7 (env : Env) (req : RequestModel) (w : World)
    (h : strTruthy env.openaiApiKey = false ∨ strTruthy env.supabaseUrl = false ∨
      strTruthy env.supabaseServiceRoleKey = false) :
    (POST env req w).1.status = 500 ∧ (POST env req w).2 = [] := by
  cases h1 : strTruthy env.openaiApiKey <;>
    cases h2 : strTruthy env.supabaseUrl <;>
      cases h3 : strTruthy env.supabaseServiceRoleKey <;>
        simp_all [POST]

/-- Witness for C7 at a concrete environment missing the API credential. -/
theorem claim_C7_witness :
    (POST envNoKey reqNoImage worldAborted).1.status = 500 ∧
    (POST envNoKey reqNoImage worldAborted).2 = [] :=
  claim_C7 envNoKey reqNoImage worldAborted (Or.inl (by decide))

/-- Claim C6: under a complete configuration, a request whose form has no
image field is answered with status 400, a non-empty error message, no
posterUrl, and no external effect at all. -/
theorem claim_C6 (env : Env) (req : RequestModel) (w : World)
    (h1 : strTruthy env.openaiApiKey = true)
    (h2 : strTruthy env.supabaseUrl = true)
    (h3 : strTruthy env.supabaseServiceRoleKey = true)
    (h4 : req.form.image = none) :
    (POST env req w).1.status = 400 ∧
    (∃ m, (POST env req w).1.error = some m ∧ m ≠ "") ∧
    (POST env req w).1.posterUrl = none ∧
    (POST env req w).2 = [] := by
  refine ⟨?_, ⟨"No image uploaded", ?_, ?_⟩, ?_, ?_⟩ <;>
    simp [POST, h1, h2, h3, h4]

/-- Witness for C6 at a concrete configured environment and imageless form. -/
theorem claim_C6_witness :
    (POST envFull reqNoImage worldAborted).1.status = 400 ∧
    (∃ m, (POST envFull reqNoImage worldAborted).1.error = some m ∧ m ≠ "") ∧
    (POST envFull reqNoImage worldAborted).1.posterUrl = none ∧
    (POST envFull reqNoImage worldAborted).2 = [] :=
  claim_C6 envFull reqNoImage worldAborted (by decide) (by decide) (by decide) rfl

/-- Claim C3: exactly one timing and size profile is selected per request:
when the fast flag or the Vercel flag holds, the size is the small square
and the timeout the short value, otherwise the large portrait and the long
value; and every image-API fetch the handler performs carries exactly the
selected pair. -/
theorem claim_C3 (env : Env) (req : RequestModel) (w : World) :
    ((requestFast req || strTruthy env.vercel) = true →
      profileSize (requestFast req) (strTruthy env.vercel) = "1024x1024" ∧
      profileTimeout (requestFast req) (strTruthy env.vercel) = 9000) ∧
    ((requestFast req || strTruthy env.vercel) = false →
      profileSize (requestFast req) (strTruthy env.vercel) = "1024x1536" ∧
      profileTimeout (requestFast req) (strTruthy env.vercel) = 45000) ∧
    (∀ s p t, Effect.fetchImageEdit s p t ∈ (POST env req w).2 →
      s = profileSize (requestFast req) (strTruthy env.vercel) ∧
      t = profileTimeout (requestFast req) (strTruthy env.vercel)) := by
  refine ⟨?_, ?_, ?_⟩
  · intro h; simp [profileSize, profileTimeout, h]
  · intro h; simp [profileSize, profileTimeout, h]
  · intro s p t hmem
    simp only [POST] at hmem
    repeat' split at hmem <;> try simp_all

/-- Witness for C3 at a concrete fast request against a configured
environment. -/
theorem claim_C3_witness :
    profileSize (requestFast { reqWithImage with fastParam := some "1" })
        (strTruthy envFull.vercel) = "1024x1024" ∧
    profileTimeout (requestFast { reqWithImage with fastParam := some "1" })
        (strTruthy envFull.vercel) = 9000 :=
  (claim_C3 envFull { reqWithImage with fastParam := some "1" } worldSuccess).1
    (by decide)

/-- Claim C4: when the image-API call is aborted by its timeout, the
returned error message is exactly the specific timeout message, and the
outbound call had indeed been issued (it appears in the effect list). -/
theorem claim_C4 (env : Env) (req : RequestModel) (w : World)
    (h1 : strTruthy env.openaiApiKey = true)
    (h2 : strTruthy env.supabaseUrl = true)
    (h3 : strTruthy env.supabaseServiceRoleKey = true)
    (himg : req.form.image = some ())
    (hab : w.fetchOutcome = FetchOutcome.aborted) :
    (POST env req w).1.error = some timeoutMessage ∧
    timeoutMessage = "Timed out. Try again (image was likely too large/slow)." ∧
    (POST env req w).1.posterUrl = none ∧
    (∃ s p t, (POST env req w).2 = [Effect.fetchImageEdit s p t]) := by
  refine ⟨?_, rfl, ?_,
    ⟨profileSize (requestFast req) (strTruthy env.vercel),
     promptOf (formString req.form.style "Cut-out modern poster")
       (formString req.form.paletteAccent "#E63946")
       (req.form.allowShapes == some "true") (req.form.aiText == some "true")
       (formString req.form.titleText ""),
     profileTimeout (requestFast req) (strTruthy env.vercel), ?_⟩⟩ <;>
    simp [POST, h1, h2, h3, himg, hab]

/-- Witness for C4 at a concrete configured environment, image-carrying
request and timed-out fetch. -/
theorem claim_C4_witness :
    (POST envFull reqWithImage worldAborted).1.error = some timeoutMessage ∧
    timeoutMessage = "Timed out. Try again (image was likely too large/slow)." ∧
    (POST envFull reqWithImage worldAborted).1.posterUrl = none ∧
    (∃ s p t, (POST envFull reqWithImage worldAborted).2 =
      [Effect.fetchImageEdit s p t]) :=
  claim_C4 envFull reqWithImage worldAborted (by decide) (by decide) (by decide)
    rfl rfl

/-- Claim C5: when the image API is reachable and answers, a non-success
status yields a 502 whose message embeds the upstream status and body, and
a success status without a usable base64 payload yields a 502 with the
no-image message; neither carries a posterUrl. -/
theorem claim_C5 (env : Env) (req : RequestModel) (w : World)
    (st : Nat) (bodyText : String) (b64 : Option String)
    (h1 : strTruthy env.openaiApiKey = true)
    (h2 : strTruthy env.supabaseUrl = true)
    (h3 : strTruthy env.supabaseServiceRoleKey = true)
    (himg : req.form.image = some ())
    (hresp : w.fetchOutcome = FetchOutcome.response st bodyText b64) :
    (respOk st = false →
      (POST env req w).1.status = 502 ∧
      (POST env req w).1.error =
        some ("OpenAI error " ++ toString st ++ ": " ++ bodyText) ∧
      (POST env req w).1.posterUrl = none) ∧
    (respOk st = true → (b64 = none ∨ b64 = some "") →
      (POST env req w).1.status = 502 ∧
      (POST env req w).1.error = some "OpenAI returned no image" ∧
      (POST env req w).1.posterUrl = none) := by
  constructor
  · intro hok
    refine ⟨?_, ?_, ?_⟩ <;> simp [POST, h1, h2, h3, himg, hresp, hok]
  · intro hok hb
    rcases hb with hb | hb <;> subst hb <;>
      refine ⟨?_, ?_, ?_⟩ <;> simp [POST, h1, h2, h3, himg, hresp, hok]

/-- Witness for C5 at a concrete 401 answer and at a concrete empty
success answer. -/
theorem claim_C5_witness :
    ((POST envFull reqWithImage worldBadStatus).1.status = 502 ∧
      (POST envFull reqWithImage worldBadStatus).1.error =
        some ("OpenAI error " ++ toString 401 ++ ": " ++ "unauthorized") ∧
      (POST envFull reqWithImage worldBadStatus).1.posterUrl = none) ∧
    ((POST envFull reqWithImage worldNoPayload).1.status = 502 ∧
      (POST envFull reqWithImage worldNoPayload).1.error =
        some "OpenAI returned no image" ∧
      (POST envFull reqWithImage worldNoPayload).1.posterUrl = none) :=
  ⟨(claim_C5 envFull reqWithImage worldBadStatus 401 "unauthorized" none
      (by decide) (by decide) (by decide) rfl rfl).1 (by decide),
   (claim_C5 envFull reqWithImage worldNoPayload 200 "" none
      (by decide) (by decide) (by decide) rfl rfl).2 (by decide) (Or.inl rfl)⟩

/-- Claim C10: both a timeout abort and an ordinary thrown network error
are answered with the same status 500; the two cases differ only in the
message carried by the error body. -/
theorem claim_C10 (env : Env) (req : RequestModel) (w : World) (msg : String)
    (h1 : strTruthy env.openaiApiKey = true)
    (h2 : strTruthy env.supabaseUrl = true)
    (h3 : strTruthy env.supabaseServiceRoleKey = true)
    (himg : req.form.image = some ()) :
    (w.fetchOutcome = FetchOutcome.aborted →
      (POST env req w).1.status = 500 ∧
      (POST env req w).1.error = some timeoutMessage) ∧
    (w.fetchOutcome = FetchOutcome.thrown msg →
      (POST env req w).1.status = 500 ∧
      (POST env req w).1.error = some msg) := by
  constructor
  · intro hab
    constructor <;> simp [POST, h1, h2, h3, himg, hab]
  · intro hth
    constructor <;> simp [POST, h1, h2, h3, himg, hth]

/-- Witness for C10 at a concrete timed-out fetch and a concrete thrown
network error. -/
theorem claim_C10_witness :
    ((POST envFull reqWithImage worldAborted).1.status = 500 ∧
      (POST envFull reqWithImage worldAborted).1.error = some timeoutMessage) ∧
    ((POST envFull reqWithImage worldThrown).1.status = 500 ∧
      (POST envFull reqWithImage worldThrown).1.error = some "fetch failed") :=
  ⟨(claim_C10 envFull reqWithImage worldAborted "fetch failed"
      (by decide) (by decide) (by decide) rfl).1 rfl,
   (claim_C10 envFull reqWithImage worldThrown "fetch failed"
      (by decide) (by decide) (by decide) rfl).2 rfl⟩

/-- Claim C1: a posterUrl is returned only when the storage upload
succeeded and a public URL was resolved; a failed upload yields a 500
whose message embeds the underlying storage failure reason; and no
response carrying an error message ever carries a posterUrl. -/
theorem claim_C1 (env : Env) (req : RequestModel) (w : World) :
    (∀ u, (POST env req w).1.posterUrl = some u →
      w.uploadError = none ∧ w.publicUrl = some u) ∧
    (∀ e st bodyText b,
      strTruthy env.openaiApiKey = true → strTruthy env.supabaseUrl = true →
      strTruthy env.supabaseServiceRoleKey = true → req.form.image = some () →
      w.fetchOutcome = FetchOutcome.response st bodyText (some b) →
      respOk st = true → b ≠ "" → w.uploadError = some e →
      (POST env req w).1.status = 500 ∧
      (POST env req w).1.error = some ("Supabase upload failed: " ++ e) ∧
      ContainsSub e ("Supabase upload failed: " ++ e) ∧
      (POST env req w).1.posterUrl = none) ∧
    (∀ m, (POST env req w).1.error = some m →
      (POST env req w).1.posterUrl = none) := by
  refine ⟨?_, ?_, ?_⟩
  · simp only [POST]
    repeat' split <;> try simp_all
  · intro e st bodyText b h1 h2 h3 himg hresp hok hbne hup
    have hb : (b == "") = false := by simp [hbne]
    refine ⟨?_, ?_, ?_, ?_⟩
    · simp [POST, h1, h2, h3, himg, hresp, hok, hb, hup]
    · simp [POST, h1, h2, h3, himg, hresp, hok, hb, hup]
    · exact containsSub_of_eq_append e "Supabase upload failed: " "" _ (by simp)
    · simp [POST, h1, h2, h3, himg, hresp, hok, hb, hup]
  · simp only [POST]
    repeat' split <;> try simp_all

/-- Witness for C1: the upload-failure half at a concrete failing upload,
and the success half at a concrete successful world. -/
theorem claim_C1_witness :
    ((POST envFull reqWithImage worldUploadFail).1.status = 500 ∧
      (POST envFull reqWithImage worldUploadFail).1.error =
        some ("Supabase upload failed: " ++ "bucket not found") ∧
      ContainsSub "bucket not found"
        ("Supabase upload failed: " ++ "bucket not found") ∧
      (POST envFull reqWithImage worldUploadFail).1.posterUrl = none) ∧
    (worldSuccess.uploadError = none ∧
      worldSuccess.publicUrl =
        some "https://example.supabase.co/object/public/p.png") :=
  ⟨(claim_C1 envFull reqWithImage worldUploadFail).2.1 "bucket not found"
      200 "" "aGVsbG8=" (by decide) (by decide) (by decide) rfl rfl
      (by decide) (by decide) rfl,
   (claim_C1 envFull reqWithImage worldSuccess).1
      "https://example.supabase.co/object/public/p.png" (by decide)⟩

/-- Claim C8: downscaling is the identity on in-bounds inputs: an image
whose longer side is at most maxSide is returned as the original file
reference, and a redrawn output only arises when the longer side exceeds
maxSide, at the proportionally scaled and rounded canvas dimensions. -/
theorem claim_C8 (width height maxSide : Nat) (ctxOk blobOk : Bool) :
    (max width height ≤ maxSide →
      downscaleImage width height maxSide ctxOk blobOk =
        DownscaleResult.original) ∧
    (∀ cw ch,
      downscaleImage width height maxSide ctxOk blobOk =
        DownscaleResult.redrawn cw ch →
      maxSide < max width height ∧
      cw = (round ((width : ℚ) *
        ((maxSide : ℚ) / (max width height : ℚ)))).toNat ∧
      ch = (round ((height : ℚ) *
        ((maxSide : ℚ) / (max width height : ℚ)))).toNat) := by
  constructor
  · intro hle
    by_cases h0 : max width height = 0
    · simp [downscaleImage, h0]
    · have hpos : (0 : ℚ) < (max width height : ℚ) := by
        exact_mod_cast Nat.pos_of_ne_zero h0
      have h1 : (1 : ℚ) ≤ (maxSide : ℚ) / (max width height : ℚ) := by
        rw [le_div_iff₀ hpos, one_mul]
        exact_mod_cast hle
      have hsc : (1 : ℚ) ≤ min 1 ((maxSide : ℚ) / (max width height : ℚ)) :=
        le_min le_rfl h1
      simp [downscaleImage, h0, hsc]
  · intro cw ch heq
    by_cases h0 : max width height = 0
    · simp [downscaleImage, h0] at heq
    · have hpos : (0 : ℚ) < (max width height : ℚ) := by
        exact_mod_cast Nat.pos_of_ne_zero h0
      by_cases hs : (1 : ℚ) ≤ min 1 ((maxSide : ℚ) / (max width height : ℚ))
      · simp [downscaleImage, h0, hs] at heq
      · have hq : (maxSide : ℚ) / (max width height : ℚ) < 1 := by
          by_contra hq
          exact hs (le_min le_rfl (not_lt.1 hq))
        have hlt : maxSide < max width height := by
          have hc : (maxSide : ℚ) < (max width height : ℚ) := (div_lt_one hpos).1 hq
          exact_mod_cast hc
        have hmin : min 1 ((maxSide : ℚ) / (max width height : ℚ)) =
            (maxSide : ℚ) / (max width height : ℚ) := min_eq_right hq.le
        have hqn : ¬ (1 : ℚ) ≤ (maxSide : ℚ) / (max width height : ℚ) :=
          not_le.2 hq
        cases ctxOk <;> cases blobOk <;>
          simp [downscaleImage, h0, hs, hqn, hmin] at heq
        refine ⟨hlt, ?_, ?_⟩
        · rw [← heq.1]
        · rw [← heq.2]

/-- Witness for C8 at a concrete in-bounds image. -/
theorem claim_C8_witness :
    downscaleImage 800 600 1024 true true = DownscaleResult.original :=
  (claim_C8 800 600 1024 true true).1 (by decide)

/-- Claim C9: the title overlay is deterministic in the poster dimensions
and the title: a title trimming to empty hands the poster URL back
unchanged, and otherwise the rendered canvas always carries the same band
height, font size and centred text position computed from the poster
dimensions alone. -/
theorem claim_C9 (posterUrl title : String) (width height : Nat) :
    (jsTrim title = "" →
      overlayTitle posterUrl title width height true =
        OverlayResult.passthrough posterUrl ∧
      overlayTitle posterUrl title width height false =
        OverlayResult.passthrough posterUrl) ∧
    (jsTrim title ≠ "" →
      overlayTitle posterUrl title width height true =
        OverlayResult.rendered
          { canvasWidth := width
            canvasHeight := height + 140
            fontSize := max 20 (round ((width : ℚ) * (35 / 1000)))
            textX := (width : ℚ) / 2
            textY := (height : ℚ) + 70 }
          (jsTrim title)) := by
  constructor
  · intro h
    constructor <;> simp [overlayTitle, h]
  · intro h
    have hb : (jsTrim title == "") = false := by simp [h]
    simp [overlayTitle, hb, overlayMetrics, titleBox]
    norm_num

/-- Witness for C9 at a concrete whitespace-only title and a concrete
rendered title. -/
theorem claim_C9_witness :
    (overlayTitle "poster.png" "   " 1024 1024 true =
        OverlayResult.passthrough "poster.png" ∧
      overlayTitle "poster.png" "   " 1024 1024 false =
        OverlayResult.passthrough "poster.png") ∧
    overlayTitle "poster.png" "Zoo" 1024 1024 true =
      OverlayResult.rendered
        { canvasWidth := 1024
          canvasHeight := 1024 + 140
          fontSize := max 20 (round (((1024 : Nat) : ℚ) * (35 / 1000)))
          textX := ((1024 : Nat) : ℚ) / 2
          textY := ((1024 : Nat) : ℚ) + 70 }
        (jsTrim "Zoo") :=
  ⟨(claim_C9 "poster.png" "   " 1024 1024).1 (by decide),
   (claim_C9 "poster.png" "Zoo" 1024 1024).2 (by decide)⟩

/-! Helper lemmas for the prompt-assembly claim: two strings with distinct
first characters are distinct, and the first character of an appended
string is that of its first nonempty part. -/

theorem string_ne_of_head (a b : String)
    (h : a.data.head? ≠ b.data.head?) : a ≠ b :=
  fun e => h (by rw [e])

theorem head_append_of_head (s t : String) (c : Char)
    (h : s.data.head? = some c) : (s ++ t).data.head? = some c := by
  rw [String.data_append]
  cases hs : s.data with
  | nil => rw [hs] at h; cases h
  | cons a as =>
    rw [hs] at h
    simpa using h

/-- The style and accent guidance line always starts with the letter U. -/
theorem head_styleLine (style accent : String) :
    ("Use a " ++ style ++ " aesthetic with harmonious palette around accent "
      ++ accent ++ ".").data.head? = some 'U' := by
  apply head_append_of_head
  apply head_append_of_head
  apply head_append_of_head
  exact head_append_of_head _ _ _ rfl

/-- The title directive always starts with the letter I. -/
theorem head_titleDirective (t : String) :
    (titleDirective t).data.head? = some 'I' := by
  unfold titleDirective
  apply head_append_of_head
  exact head_append_of_head _ _ _ rfl

/-- With allowShapes set, the no-shapes directive is never in the list. -/
theorem noShapes_not_mem (style accent : String) (aiText : Bool)
    (titleText : String) :
    noShapesDirective ∉ guidance style accent true aiText titleText := by
  intro h
  simp only [guidance, if_true, List.mem_append, List.mem_cons,
    List.not_mem_nil, or_false] at h
  rcases h with ((h | h | h | h) | h) | h
  · exact absurd h (by decide)
  · exact absurd h (by decide)
  · exact absurd h (by decide)
  · exact absurd h (string_ne_of_head _ _ (by rw [head_styleLine]; decide))
  · exact absurd h (by decide)
  · cases hc : aiText && !(jsTrim titleText == "") <;> rw [hc] at h <;> simp at h
    · exact absurd h (by decide)
    · exact absurd h (string_ne_of_head _ _ (by rw [head_titleDirective]; decide))

/-- With allowShapes unset, the may-add-shapes directive is never in the
list. -/
theorem mayShapes_not_mem (style accent : String) (aiText : Bool)
    (titleText : String) :
    mayShapesDirective ∉ guidance style accent false aiText titleText := by
  intro h
  simp only [guidance, if_false, List.mem_append, List.mem_cons,
    List.not_mem_nil, or_false] at h
  rcases h with ((h | h | h | h) | h) | h
  · exact absurd h (by decide)
  · exact absurd h (by decide)
  · exact absurd h (by decide)
  · exact absurd h (string_ne_of_head _ _ (by rw [head_styleLine]; decide))
  · exact absurd h (by decide)
  · cases hc : aiText && !(jsTrim titleText == "") <;> rw [hc] at h <;> simp at h
    · exact absurd h (by decide)
    · exact absurd h (string_ne_of_head _ _ (by rw [head_titleDirective]; decide))

/-- When the title branch is taken, the no-text directive is never in the
list. -/
theorem noText_not_mem (style accent : String) (allowShapes aiText : Bool)
    (titleText : String)
    (hcond : (aiText && !(jsTrim titleText == "")) = true) :
    noTextDirective ∉ guidance style accent allowShapes aiText titleText := by
  intro h
  simp only [guidance, hcond, if_true, List.mem_append, List.mem_cons,
    List.not_mem_nil, or_false] at h
  rcases h with ((h | h | h | h) | h) | h
  · exact absurd h (by decide)
  · exact absurd h (by decide)
  · exact absurd h (by decide)
  · exact absurd h (string_ne_of_head _ _ (by rw [head_styleLine]; decide))
  · cases hA : allowShapes <;> rw [hA] at h <;> simp at h <;>
      exact absurd h (by decide)
  · exact absurd h (string_ne_of_head _ _ (by rw [head_titleDirective]; decide))

/-- When the no-text branch is taken, no title directive is in the list. -/
theorem title_not_mem (style accent : String) (allowShapes aiText : Bool)
    (titleText t2 : String)
    (hcond : (aiText && !(jsTrim titleText == "")) = false) :
    titleDirective t2 ∉ guidance style accent allowShapes aiText titleText := by
  intro h
  simp only [guidance, hcond, Bool.false_eq_true, if_false, List.mem_append,
    List.mem_cons, List.not_mem_nil, or_false] at h
  rcases h with ((h | h | h | h) | h) | h
  · exact absurd h (string_ne_of_head _ _ (by rw [head_titleDirective]; decide))
  · exact absurd h (string_ne_of_head _ _ (by rw [head_titleDirective]; decide))
  · exact absurd h (string_ne_of_head _ _ (by rw [head_titleDirective]; decide))
  · exact absurd h
      (string_ne_of_head _ _ (by rw [head_titleDirective, head_styleLine]; decide))
  · cases hA : allowShapes <;> rw [hA] at h <;> simp at h <;>
      exact absurd h (string_ne_of_head _ _ (by rw [head_titleDirective]; decide))
  · exact absurd h (string_ne_of_head _ _ (by rw [head_titleDirective]; decide))

/-- Any member of the guidance list occurs verbatim inside the assembled
prompt. -/
theorem mem_guidance_containsSub_prompt (style accent : String)
    (allowShapes aiText : Bool) (titleText g : String)
    (hg : g ∈ guidance style accent allowShapes aiText titleText) :
    ContainsSub g (promptOf style accent allowShapes aiText titleText) := by
  unfold promptOf
  exact containsSub_append_right _ _ _
    (containsSub_append_left _ _ _
      (containsSub_joinWith_numberFrom "\n" g _ hg 1))

/-- The trimmed title in double quotes occurs inside the title directive. -/
theorem quoted_in_titleDirective (t : String) :
    ContainsSub ("\"" ++ jsTrim t ++ "\"") (titleDirective t) := by
  apply containsSub_of_eq_append _ "If adding text, use this title: "
    " in a clean, minimal layout; keep it unobtrusive."
  have h1 : ("If adding text, use this title: \"" : String) =
      "If adding text, use this title: " ++ "\"" := by decide
  have h2 : ("\" in a clean, minimal layout; keep it unobtrusive." : String) =
      "\"" ++ " in a clean, minimal layout; keep it unobtrusive." := by decide
  rw [titleDirective, h1, h2]
  simp only [String.append_assoc]

/-- Claim C2, amended: the guidance list always contains exactly one
directive of each conditional pair, and the selected directive occurs
verbatim in the assembled prompt: with allowShapes true the may-add-shapes
directive and not the no-shapes directive (and vice versa with false);
with aiText true and a title trimming to non-empty, the title directive
and not the no-text directive, and the prompt carries the trimmed title in
double quotes; with aiText false or a title trimming to empty, the no-text
directive and no title directive. -/
theorem claim_C2 (style accent titleText : String) (allowShapes aiText : Bool) :
    (allowShapes = true →
      mayShapesDirective ∈ guidance style accent allowShapes aiText titleText ∧
      noShapesDirective ∉ guidance style accent allowShapes aiText titleText ∧
      ContainsSub mayShapesDirective
        (promptOf style accent allowShapes aiText titleText)) ∧
    (allowShapes = false →
      noShapesDirective ∈ guidance style accent allowShapes aiText titleText ∧
      mayShapesDirective ∉ guidance style accent allowShapes aiText titleText ∧
      ContainsSub noShapesDirective
        (promptOf style accent allowShapes aiText titleText)) ∧
    (aiText = true → jsTrim titleText ≠ "" →
      titleDirective titleText ∈ guidance style accent allowShapes aiText titleText ∧
      noTextDirective ∉ guidance style accent allowShapes aiText titleText ∧
      ContainsSub ("\"" ++ jsTrim titleText ++ "\"")
        (promptOf style accent allowShapes aiText titleText)) ∧
    ((aiText = false ∨ jsTrim titleText = "") →
      noTextDirective ∈ guidance style accent allowShapes aiText titleText ∧
      (∀ t2, titleDirective t2 ∉ guidance style accent allowShapes aiText titleText) ∧
      ContainsSub noTextDirective
        (promptOf style accent allowShapes aiText titleText)) := by
  refine ⟨?_, ?_, ?_, ?_⟩
  · intro ha
    subst ha
    refine ⟨by simp [guidance], noShapes_not_mem style accent aiText titleText, ?_⟩
    exact mem_guidance_containsSub_prompt _ _ _ _ _ _ (by simp [guidance])
  · intro ha
    subst ha
    refine ⟨by simp [guidance], mayShapes_not_mem style accent aiText titleText, ?_⟩
    exact mem_guidance_containsSub_prompt _ _ _ _ _ _ (by simp [guidance])
  · intro hai htr
    subst hai
    have hcond : (true && !(jsTrim titleText == "")) = true := by simp [htr]
    refine ⟨by simp [guidance, hcond],
      noText_not_mem style accent allowShapes true titleText hcond, ?_⟩
    exact containsSub_trans _ _ _ (quoted_in_titleDirective titleText)
      (mem_guidance_containsSub_prompt _ _ _ _ _ _ (by simp [guidance, hcond]))
  · intro hor
    have hcond : (aiText && !(jsTrim titleText == "")) = false := by
      rcases hor with h | h <;> simp [h]
    refine ⟨by simp [guidance, hcond],
      fun t2 => title_not_mem style accent allowShapes aiText titleText t2 hcond, ?_⟩
    exact mem_guidance_containsSub_prompt _ _ _ _ _ _ (by simp [guidance, hcond])

set_option maxHeartbeats 2000000 in
/-- Counterexample to C2 as stated: first, a request whose style field
itself embeds the no-shapes directive makes the assembled prompt contain
both shapes directives as substrings even though allowShapes is true;
second, with aiText true and the non-empty whitespace title, the prompt
carries the no-text directive and does not carry that title in quotes. -/
theorem claim_C2_counterexample :
    (ContainsSub mayShapesDirective
        (promptOf noShapesDirective "#E63946" true false "") ∧
      ContainsSub noShapesDirective
        (promptOf noShapesDirective "#E63946" true false "")) ∧
    ((" " : String) ≠ "" ∧
      ContainsSub noTextDirective
        (promptOf "Matisse-esque" "#E63946" true true " ") ∧
      ¬ ContainsSub ("\" \"")
        (promptOf "Matisse-esque" "#E63946" true true " ")) := by
  refine ⟨⟨?_, ?_⟩, ?_, ?_, ?_⟩ <;> decide

/-- Witness for C2 exercising all four branches at concrete requests. -/
theorem claim_C2_witness :
    (mayShapesDirective ∈ guidance "Matisse-esque" "#E63946" true false "" ∧
      noShapesDirective ∉ guidance "Matisse-esque" "#E63946" true false "" ∧
      ContainsSub mayShapesDirective
        (promptOf "Matisse-esque" "#E63946" true false "")) ∧
    (noTextDirective ∈ guidance "Matisse-esque" "#E63946" true false "" ∧
      (∀ t2, titleDirective t2 ∉ guidance "Matisse-esque" "#E63946" true false "") ∧
      ContainsSub noTextDirective
        (promptOf "Matisse-esque" "#E63946" true false "")) ∧
    (noShapesDirective ∈ guidance "Bauhaus" "#0000FF" false true "Zoo" ∧
      mayShapesDirective ∉ guidance "Bauhaus" "#0000FF" false true "Zoo" ∧
      ContainsSub noShapesDirective
        (promptOf "Bauhaus" "#0000FF" false true "Zoo")) ∧
    (titleDirective "Zoo" ∈ guidance "Bauhaus" "#0000FF" false true "Zoo" ∧
      noTextDirective ∉ guidance "Bauhaus" "#0000FF" false true "Zoo" ∧
      ContainsSub ("\"" ++ jsTrim "Zoo" ++ "\"")
        (promptOf "Bauhaus" "#0000FF" false true "Zoo")) :=
  ⟨(claim_C2 "Matisse-esque" "#E63946" "" true false).1 rfl,
   (claim_C2 "Matisse-esque" "#E63946" "" true false).2.2.2 (Or.inl rfl),
   (claim_C2 "Bauhaus" "#0000FF" "Zoo" false true).2.1 rfl,
   (claim_C2 "Bauhaus" "#0000FF" "Zoo" false true).2.2.1 rfl (by decide)⟩

end KidsPoster
